import Mathlib

/-!
Shallow embedding of the ClubHub backend (backend/index.js, backend/db.js)
for the verification of its specification.

Conventions of the embedding:
* JavaScript epoch-millisecond timestamps are `Int`; `Date.now()` and
  `new Date()` become an explicit `now : Int` parameter.
* Nullable columns / possibly-absent JSON fields are `Option _`.
* The in-process `Map` used as OTP store is a `List (String × CodeRec)`
  with `get` / `set` / `delete` giving the extensional Map behaviour.
* SQL tables are lists of row structures; `SELECT ... WHERE` is `find?` /
  `filter`, `COUNT(*)` is `countP`, `UPDATE` is `map`.
* External collaborators (SMTP delivery, bcrypt) are modelled by an
  explicit outcome flag respectively an abstract hashing function; no
  claim depends on their internals.
-/

namespace ClubHub

/-- `CODE_TTL` from index.js: default 300 seconds, in milliseconds. -/
def CODE_TTL : Int := 300 * 1000

/-- JavaScript `String.prototype.toLowerCase` (character-wise lowering;
    ASCII in all modelled inputs). -/
def jsToLower (s : String) : String := String.mk (s.data.map Char.toLower)

/-- A pending OTP record: `codeStore.set(key, { code, expiresAt })`. -/
structure CodeRec where
  code : String
  expiresAt : Int
deriving DecidableEq, Repr

/-- The in-process OTP ledger `codeStore : Map` keyed by lower-cased email. -/
def CodeStore := List (String × CodeRec)

/-- `codeStore.get(key)`. -/
def storeGet (s : CodeStore) (k : String) : Option CodeRec :=
  (List.find? (fun p => p.1 == k) s).map Prod.snd

/-- `codeStore.delete(key)` (a Map holds at most one binding per key;
    the list model erases every binding of the key). -/
def storeDelete (s : CodeStore) (k : String) : CodeStore :=
  List.filter (fun p => p.1 != k) s

/-- `codeStore.set(key, v)`: overwrites any previous binding of the key. -/
def storeSet (s : CodeStore) (k : String) (v : CodeRec) : CodeStore :=
  (k, v) :: storeDelete s k

/-- index.js `storeCode(email, code)`: keyed by lower-cased email,
    absolute expiry `Date.now() + CODE_TTL`. -/
def storeCode (now : Int) (s : CodeStore) (email code : String) : CodeStore :=
  storeSet s (jsToLower email) { code := code, expiresAt := now + CODE_TTL }

/-- index.js `validateCode(email, code)`: returns the boolean result and
    the ledger after the call.  Absent record: false, untouched.  Expired
    (`Date.now() > rec.expiresAt`): false, record deleted.  Mismatch:
    false, record retained.  Exact match: record deleted, true. -/
def validateCode (now : Int) (s : CodeStore) (email code : String) :
    Bool × CodeStore :=
  let key := jsToLower email
  match storeGet s key with
  | none => (false, s)
  | some rec =>
    if now > rec.expiresAt then (false, storeDelete s key)
    else if rec.code ≠ code then (false, s)
    else (true, storeDelete s key)

/-- A row of the `users` table (schema.sql), restricted to the columns the
    modelled endpoints read or write. -/
structure UserRow where
  id : Nat
  email : String
  passwordHash : Option String
  role : Option String
  name : Option String
  branch : Option String
  rollNumber : Option String
  clubId : Option Int
  adminRequested : Bool
deriving DecidableEq, Repr

/-- db.js `findUserByEmail`: `WHERE u.email = $1` with the argument
    lower-cased (stored emails are already lower-cased on creation). -/
def findUserByEmail (users : List UserRow) (email : String) : Option UserRow :=
  List.find? (fun u => u.email == jsToLower email) users

/-- Serial `id` of a freshly inserted user row (value irrelevant to any
    claim; modelled as one past the number of rows). -/
def nextUserId (users : List UserRow) : Nat := users.length + 1

/-- db.js `createUser(email, passwordHash, role)`: inserts a row with the
    lower-cased email; the remaining columns take their defaults. -/
def createUser (users : List UserRow) (email : String)
    (passwordHash : Option String) (role : Option String) : List UserRow :=
  users ++ [{ id := nextUserId users, email := jsToLower email,
              passwordHash := passwordHash, role := role,
              name := none, branch := none, rollNumber := none,
              clubId := none, adminRequested := false }]

/-- db.js `updatePassword(email, passwordHash)`:
    `UPDATE users SET password_hash=$1 WHERE email=$2`. -/
def updatePassword (users : List UserRow) (email : String)
    (passwordHash : String) : List UserRow :=
  List.map (fun u => if u.email == jsToLower email
                     then { u with passwordHash := some passwordHash }
                     else u) users

/-- The external bcrypt collaborator `bcrypt.hash(password, 10)`.  No claim
    depends on the hash's content, only on which rows receive one. -/
def bcryptHash (password : String) : String :=
  String.append "bcrypt10$" password

/-- Body of `POST /auth/verify`. -/
structure VerifyReq where
  email : String
  code : String
  password : Option String
  confirm : Option String
deriving DecidableEq, Repr

/-- Outcome of `POST /auth/verify`: HTTP status plus the two stores it may
    have written (OTP ledger and users table). -/
structure VerifyResult where
  status : Nat
  store : CodeStore
  users : List UserRow

/-- index.js `POST /auth/verify`.  The OTP is consumed by `validateCode`
    BEFORE any password rule is checked; a 400 for a short or mismatched
    password therefore still leaves the code deleted.  (`typeof password
    !== 'string'` cannot arise in the typed model; `password !== confirm`
    against an absent `confirm` is a mismatch.) -/
def authVerify (now : Int) (s : CodeStore) (users : List UserRow)
    (req : VerifyReq) : VerifyResult :=
  if req.email = "" ∨ req.code = "" then
    { status := 400, store := s, users := users }
  else
    let r := validateCode now s req.email req.code
    if r.1 = false then { status := 401, store := r.2, users := users }
    else
      let key := jsToLower req.email
      let existing := findUserByEmail users key
      match req.password with
      | some p =>
        if p.length < 6 then { status := 400, store := r.2, users := users }
        else if req.confirm ≠ some p then
          { status := 400, store := r.2, users := users }
        else
          match existing with
          | some _ => { status := 200, store := r.2,
                        users := updatePassword users key (bcryptHash p) }
          | none => { status := 200, store := r.2,
                      users := createUser users key (some (bcryptHash p)) none }
      | none =>
        match existing with
        | none => { status := 200, store := r.2,
                    users := createUser users key none none }
        | some _ => { status := 200, store := r.2, users := users }

/-- Outcome of `POST /auth/send-code`: HTTP status and the OTP ledger after
    the call (`codeInBody` records the dev-fallback leak of the code). -/
structure SendCodeResult where
  status : Nat
  store : CodeStore
  codeInBody : Bool

/-- index.js `POST /auth/send-code`.  `generated` is the drawn 6-digit
    code, `deliveryOk` the outcome of the external SMTP collaborator and
    `devFallback` the `DEV_FALLBACK` configuration flag.  The code is
    stored by `storeCode` BEFORE delivery is attempted, and a delivery
    failure does not remove it. -/
def authSendCode (now : Int) (s : CodeStore) (email : String)
    (generated : String) (deliveryOk devFallback : Bool) : SendCodeResult :=
  if email = "" then { status := 400, store := s, codeInBody := false }
  else
    let s2 := storeCode now s email generated
    if deliveryOk then { status := 200, store := s2, codeInBody := false }
    else if devFallback then { status := 200, store := s2, codeInBody := true }
    else { status := 500, store := s2, codeInBody := false }

/-! ### Event registration (backend/index.js, EVENT REGISTRATION ROUTES) -/

/-- `status` column of `event_registrations`. -/
inductive RegStatus where
  | registered
  | cancelled
deriving DecidableEq, Repr

/-- A row of the `event_registrations` table (columns the routes read). -/
structure EventRow where
  announcementId : Nat
  userId : Nat
  status : RegStatus
deriving DecidableEq, Repr

/-- The registration-policy columns of an `announcements` row.
    `registration_enabled BOOLEAN`, `registration_deadline TIMESTAMPTZ`
    (epoch ms), `max_registrations INTEGER`. -/
structure Ann where
  regEnabled : Bool
  deadline : Option Int
  maxRegs : Option Int
deriving DecidableEq, Repr

/-- JavaScript truthiness of a nullable number (`null` and `0` are falsy),
    as in `if (announcement.max_registrations)`. -/
def jsTruthyNum (o : Option Int) : Bool :=
  match o with
  | none => false
  | some n => n != 0

/-- `if (announcement.registration_deadline) { if (new Date() > deadline)
    ... }`: a non-null deadline (a Date is always truthy) strictly in the
    past. -/
def deadlineOver (now : Int) (o : Option Int) : Bool :=
  match o with
  | some d => decide (now > d)
  | none => false

/-- `SELECT COUNT(*) FROM event_registrations WHERE announcement_id = $1
    AND status = 'registered'`. -/
def countRegistered (rows : List EventRow) (aid : Nat) : Nat :=
  List.countP (fun r => r.announcementId == aid
                        && r.status == RegStatus.registered) rows

/-- `SELECT id, status FROM event_registrations WHERE announcement_id = $1
    AND user_id = $2`, taking `existing[0]` (the pair is UNIQUE). -/
def findRow (rows : List EventRow) (aid uid : Nat) : Option EventRow :=
  List.find? (fun r => r.announcementId == aid && r.userId == uid) rows

/-- `UPDATE event_registrations SET status = 'registered' WHERE id =
    existing[0].id`: rewrites the first row of the pair. -/
def reactivateRow (rows : List EventRow) (aid uid : Nat) : List EventRow :=
  match rows with
  | [] => []
  | r :: rest =>
    if r.announcementId == aid && r.userId == uid then
      { r with status := RegStatus.registered } :: rest
    else r :: reactivateRow rest aid uid

/-- Outcomes of the registration routes, one per `return` site. -/
inductive RegResult where
  | userNotFound
  | eventNotFound
  | notEnabled
  | deadlinePassed
  | eventFull
  | alreadyRegistered
  | success
deriving DecidableEq, Repr

/-- Core of `POST /announcements/:announcementId/register` after the user
    and announcement rows are resolved, mirroring the source's control
    flow: enabled check; deadline check (`new Date() > deadline`); then —
    only inside `if (announcement.max_registrations)` — capacity check,
    already-registered check and the re-register/insert writes; a final
    unconditional success response.  (When `max_registrations` is not set
    the write block is skipped entirely: that nesting is in the source.) -/
def register (now : Int) (a : Ann) (rows : List EventRow) (aid uid : Nat) :
    RegResult × List EventRow :=
  if a.regEnabled = false then (RegResult.notEnabled, rows)
  else if deadlineOver now a.deadline then (RegResult.deadlinePassed, rows)
  else if jsTruthyNum a.maxRegs then
    match a.maxRegs with
    | none => (RegResult.success, rows)
    | some m =>
      if (countRegistered rows aid : Int) ≥ m then (RegResult.eventFull, rows)
      else
        match findRow rows aid uid with
        | some r =>
          if r.status = RegStatus.registered then
            (RegResult.alreadyRegistered, rows)
          else (RegResult.success, reactivateRow rows aid uid)
        | none =>
          (RegResult.success,
           rows ++ [{ announcementId := aid, userId := uid,
                      status := RegStatus.registered }])
  else (RegResult.success, rows)

/-- The database state the registration routes touch. -/
structure DB where
  users : List UserRow
  announcements : List (Nat × Ann)
  registrations : List EventRow

/-- `POST /announcements/:announcementId/register`: resolves the caller's
    user row and the announcement, then runs the core `register`. -/
def registerEndpoint (now : Int) (db : DB) (email : String) (aid : Nat) :
    RegResult × DB :=
  match findUserByEmail db.users email with
  | none => (RegResult.userNotFound, db)
  | some u =>
    match List.find? (fun p => p.1 == aid) db.announcements with
    | none => (RegResult.eventNotFound, db)
    | some p =>
      let r := register now p.2 db.registrations aid u.id
      (r.1, { db with registrations := r.2 })

/-- Outcomes of `POST /announcements/:announcementId/unregister`. -/
inductive UnregResult where
  | userNotFound
  | registrationNotFound
  | success
deriving DecidableEq, Repr

/-- The WHERE clause of the unregister UPDATE: `announcement_id = $1 AND
    user_id = $2 AND status = 'registered'`. -/
def regHit (aid uid : Nat) (r : EventRow) : Bool :=
  r.announcementId == aid && r.userId == uid
  && r.status == RegStatus.registered

/-- The number of rows the unregister UPDATE would touch (its
    `rowCount`): the pair's rows that are still `registered`. -/
def pairRegistered (rows : List EventRow) (aid uid : Nat) : Nat :=
  List.countP (regHit aid uid) rows

/-- Core of the unregister route: `UPDATE event_registrations SET status =
    'cancelled' WHERE announcement_id = $1 AND user_id = $2 AND status =
    'registered'`; 404 when `rowCount === 0`. -/
def unregister (rows : List EventRow) (aid uid : Nat) :
    UnregResult × List EventRow :=
  if pairRegistered rows aid uid = 0 then
    (UnregResult.registrationNotFound, rows)
  else (UnregResult.success,
        List.map (fun r => if regHit aid uid r then
                             { r with status := RegStatus.cancelled }
                           else r) rows)

/-- `GET /announcements/:announcementId/registration-status`: true iff a
    row for the pair exists and its first row's status is `registered`. -/
def registrationStatus (db : DB) (email : String) (aid : Nat) : Bool :=
  match findUserByEmail db.users email with
  | none => false
  | some u =>
    match findRow db.registrations aid u.id with
    | some r => r.status == RegStatus.registered
    | none => false

/-! ### registration-info and JavaScript strict equality -/

/-- A JavaScript value, as far as the `registration-info` route needs. -/
inductive JSVal where
  | vbool : Bool → JSVal
  | vnum : Int → JSVal
  | vstr : String → JSVal
  | vnull : JSVal
deriving DecidableEq, Repr

/-- ECMAScript strict equality `===`: operands of different types are
    never equal; same-typed operands compare by value. -/
def jsStrictEq : JSVal → JSVal → Bool
  | JSVal.vbool a, JSVal.vbool b => a == b
  | JSVal.vnum a, JSVal.vnum b => a == b
  | JSVal.vstr a, JSVal.vstr b => a == b
  | JSVal.vnull, JSVal.vnull => true
  | _, _ => false

/-- Body of `GET /announcements/:announcementId/registration-info`.
    `isFull` and `deadlinePassed` are the truthiness of the JS expressions
    `max_registrations && currentCount >= max_registrations` and
    `registration_deadline && new Date() > new Date(deadline)` (a falsy
    `&&` short-circuit serialises as null, i.e. boolean false here). -/
structure RegInfo where
  enabled : Bool
  currentCount : Nat
  maxRegs : Option Int
  deadline : Option Int
  isFull : Bool
  deadlinePassed : Bool
deriving DecidableEq, Repr

/-- The `registration-info` projection for an announcement whose
    registered-row count is taken from `countRegistered`.  The route
    computes `registration_enabled: announcement.registration_enabled === 1`
    — a strict equality between the BOOLEAN column's value and the number
    one. -/
def registrationInfo (now : Int) (a : Ann) (rows : List EventRow)
    (aid : Nat) : RegInfo :=
  let currentCount := countRegistered rows aid
  { enabled := jsStrictEq (JSVal.vbool a.regEnabled) (JSVal.vnum 1)
    currentCount := currentCount
    maxRegs := a.maxRegs
    deadline := a.deadline
    isFull := jsTruthyNum a.maxRegs
              && decide ((currentCount : Int) ≥ a.maxRegs.getD 0)
    deadlinePassed := deadlineOver now a.deadline }

/-! ### Profile update (POST /profile, db.js updateProfile) -/

/-- JavaScript truthiness of a nullable string (`null` and `''` falsy). -/
def jsTruthyStr (o : Option String) : Bool :=
  match o with
  | none => false
  | some s => s != ""

/-- JavaScript `x || null` on a nullable string. -/
def orNullStr (o : Option String) : Option String :=
  if jsTruthyStr o then o else none

/-- JavaScript truthiness of a nullable number as sent for `club_id`. -/
def orNullNum (o : Option Int) : Option Int :=
  if (match o with | none => false | some n => n != 0) then o else none

/-- Body of `POST /profile`. -/
structure ProfileBody where
  name : Option String
  branch : Option String
  rollNumber : Option String
  role : Option String
  clubId : Option Int
deriving DecidableEq, Repr

/-- db.js `updateProfile`: three UPDATE shapes.  `request_admin` sets
    name/branch/roll_number/club_id and `admin_requested=true` (role
    untouched); else a truthy `role` sets name/branch/roll_number/role;
    else only name/branch/roll_number are written. -/
def updateProfile (u : UserRow) (name branch rollNumber : Option String)
    (role : Option String) (clubId : Option Int) (requestAdmin : Bool) :
    UserRow :=
  if requestAdmin then
    { u with name := name, branch := branch, rollNumber := rollNumber,
             clubId := clubId, adminRequested := true }
  else if jsTruthyStr role then
    { u with name := name, branch := branch, rollNumber := rollNumber,
             role := role }
  else
    { u with name := name, branch := branch, rollNumber := rollNumber }

/-- index.js `POST /profile` applied to the caller's row: when the body
    carries a truthy `role` and the stored role is falsy, `student` is set
    directly and `club_admin` records an admin request (role left null);
    any other case is a generic edit calling `updateProfile` with
    `role: null, club_id: null, request_admin: false`. -/
def postProfile (u : UserRow) (b : ProfileBody) : UserRow :=
  if jsTruthyStr b.role && !jsTruthyStr u.role then
    if b.role = some "student" then
      updateProfile u (orNullStr b.name) (orNullStr b.branch)
        (orNullStr b.rollNumber) (some "student") none false
    else if b.role = some "club_admin" then
      updateProfile u (orNullStr b.name) (orNullStr b.branch)
        (orNullStr b.rollNumber) none (orNullNum b.clubId) true
    else u
  else
    updateProfile u (orNullStr b.name) (orNullStr b.branch)
      (orNullStr b.rollNumber) none none false

/-- A sequence of register calls threading the `event_registrations`
    table: the list of responses and the final table. -/
def registerSeq (now : Int) (a : Ann) (aid : Nat) :
    List EventRow → List Nat → List RegResult × List EventRow
  | rows, [] => ([], rows)
  | rows, u :: us =>
    let r := register now a rows aid u
    let rest := registerSeq now a aid r.2 us
    (r.1 :: rest.1, rest.2)

/-- The row inserted for a fresh registration of user `uid`. -/
def mkReg (aid uid : Nat) : EventRow :=
  { announcementId := aid, userId := uid, status := RegStatus.registered }

/-- An announcement with registration enabled, no deadline and capacity
    `m` — the configuration of the capacity property. -/
def capAnn (m : Int) : Ann :=
  { regEnabled := true, deadline := none, maxRegs := some m }

/-- The database of the C1 failing input: one user, one announcement with
    registration enabled, no deadline, no `max_registrations`, and an
    empty `event_registrations` table. -/
def c1db : DB :=
  { users := [{ id := 10, email := "a@x.edu", passwordHash := none,
                role := some "student", name := none, branch := none,
                rollNumber := none, clubId := none,
                adminRequested := false }]
    announcements := [(1, { regEnabled := true, deadline := none,
                            maxRegs := none })]
    registrations := [] }

/-! ### Helper lemmas on the OTP ledger -/

/-- Deleting a key removes its binding. -/
theorem storeGet_storeDelete_self (s : CodeStore) (k : String) :
    storeGet (storeDelete s k) k = none := by
  unfold storeGet storeDelete
  rw [Option.map_eq_none', List.find?_eq_none]
  intro p hp
  rcases List.mem_filter.mp hp with ⟨_, hne⟩
  simpa using hne

/-- Setting a key makes lookup of that key return the stored record. -/
theorem storeGet_storeSet_self (s : CodeStore) (k : String) (v : CodeRec) :
    storeGet (storeSet s k v) k = some v := by
  unfold storeGet storeSet
  simp [List.find?]

/-- A successful `validateCode` leaves the ledger with the key deleted. -/
theorem validateCode_true_store (now : Int) (s : CodeStore)
    (email code : String) (h : (validateCode now s email code).1 = true) :
    (validateCode now s email code).2 = storeDelete s (jsToLower email) := by
  unfold validateCode at h ⊢
  cases hg : storeGet s (jsToLower email) with
  | none => simp [hg] at h
  | some rec =>
    simp only [hg] at h ⊢
    by_cases he : now > rec.expiresAt
    · simp [he] at h
    · by_cases hc : rec.code ≠ code
      · simp [he, hc] at h
      · simp [he, hc]

/-- A pending exact-match unexpired code validates and is deleted. -/
theorem validateCode_hit (now e : Int) (s : CodeStore) (email code : String)
    (hrec : storeGet s (jsToLower email) = some { code := code, expiresAt := e })
    (hexp : ¬ now > e) :
    validateCode now s email code = (true, storeDelete s (jsToLower email)) := by
  unfold validateCode
  simp [hrec, hexp]

/-- With no pending record the validation fails and touches nothing. -/
theorem validateCode_absent (now : Int) (s : CodeStore) (email code : String)
    (h : storeGet s (jsToLower email) = none) :
    validateCode now s email code = (false, s) := by
  unfold validateCode
  simp [h]

/-- C3: `consume(email, submittedCode)` returns false if no pending record
    exists; returns false and deletes the record if now is strictly after
    its expiry; returns false and retains the record on a code mismatch;
    deletes the record and returns true on an exact match before expiry;
    and a second consume with the same correct code after a successful one
    always fails (single-use). -/
theorem otp_consume_spec (now : Int) (s : CodeStore) (email code : String) :
    (storeGet s (jsToLower email) = none →
      validateCode now s email code = (false, s)) ∧
    (∀ rec, storeGet s (jsToLower email) = some rec →
      (now > rec.expiresAt →
        validateCode now s email code = (false, storeDelete s (jsToLower email))) ∧
      (¬ now > rec.expiresAt → rec.code ≠ code →
        validateCode now s email code = (false, s)) ∧
      (¬ now > rec.expiresAt → rec.code = code →
        validateCode now s email code = (true, storeDelete s (jsToLower email)))) ∧
    ((validateCode now s email code).1 = true →
      ∀ now2 : Int,
        (validateCode now2 (validateCode now s email code).2 email code).1
          = false) := by
  refine ⟨?_, ?_, ?_⟩
  · intro h
    unfold validateCode
    simp [h]
  · intro rec hrec
    refine ⟨?_, ?_, ?_⟩
    · intro hexp
      unfold validateCode
      simp [hrec, hexp]
    · intro hexp hne
      unfold validateCode
      simp [hrec, hexp, hne]
    · intro hexp heq
      unfold validateCode
      simp [hrec, hexp, heq]
  · intro h now2
    rw [validateCode_true_store now s email code h]
    unfold validateCode
    simp [storeGet_storeDelete_self]

/-- Witness for C3: a concrete ledger on which the exact-match consume
    succeeds and the immediate replay of the same code fails. -/
theorem otp_consume_spec_witness :
    (validateCode 500 [("a@x.edu", { code := "123456", expiresAt := 1000 })]
      "a@x.edu" "123456").1 = true ∧
    (validateCode 600
      (validateCode 500 [("a@x.edu", { code := "123456", expiresAt := 1000 })]
        "a@x.edu" "123456").2 "a@x.edu" "123456").1 = false := by
  refine ⟨by decide, ?_⟩
  exact (otp_consume_spec 500
    [("a@x.edu", { code := "123456", expiresAt := 1000 })]
    "a@x.edu" "123456").2.2 (by decide) 600

/-- C9: `/auth/send-code` stores the generated OTP before attempting email
    delivery; when delivery fails with the dev fallback disabled the
    endpoint answers 500 yet the code stays in the ledger and can be
    consumed at any time not after its expiry. -/
theorem sendcode_stores_despite_delivery_failure
    (now : Int) (s : CodeStore) (email gen : String) (h : email ≠ "") :
    (authSendCode now s email gen false false).status = 500 ∧
    storeGet (authSendCode now s email gen false false).store
      (jsToLower email) = some { code := gen, expiresAt := now + CODE_TTL } ∧
    (∀ t : Int, ¬ t > now + CODE_TTL →
      (validateCode t (authSendCode now s email gen false false).store
        email gen).1 = true) := by
  have hstore : (authSendCode now s email gen false false).store
      = storeSet s (jsToLower email)
          { code := gen, expiresAt := now + CODE_TTL } := by
    unfold authSendCode storeCode
    simp [h]
  have hstat : (authSendCode now s email gen false false).status = 500 := by
    unfold authSendCode
    simp [h]
  refine ⟨hstat, ?_, ?_⟩
  · rw [hstore]
    exact storeGet_storeSet_self ..
  · intro t ht
    rw [hstore, validateCode_hit t (now + CODE_TTL) _ email gen
      (storeGet_storeSet_self ..) ht]

/-- Witness for C9: a failed delivery answers 500 and the stored code is
    still consumable at the very end of its window. -/
theorem sendcode_stores_despite_delivery_failure_witness :
    (authSendCode 0 [] "A@x.edu" "123456" false false).status = 500 ∧
    (validateCode 300000 (authSendCode 0 [] "A@x.edu" "123456" false
      false).store "A@x.edu" "123456").1 = true := by
  have h := sendcode_stores_despite_delivery_failure 0 [] "A@x.edu" "123456"
    (by decide)
  exact ⟨h.1, h.2.2 300000 (by decide)⟩

/-- C8: `/auth/verify` carrying a too-short or mismatched password answers
    400 and leaves the users table untouched; replaying the same rejected
    request answers 401 (the code was consumed) and still leaves the users
    table untouched. -/
theorem verify_rejected_password_preserves_account
    (now e : Int) (s : CodeStore) (users : List UserRow)
    (email code p : String) (confirm : Option String)
    (hemail : email ≠ "") (hcode : code ≠ "")
    (hrec : storeGet s (jsToLower email)
      = some { code := code, expiresAt := e })
    (hexp : ¬ now > e)
    (hbad : p.length < 6 ∨ confirm ≠ some p) :
    (authVerify now s users ⟨email, code, some p, confirm⟩).status = 400 ∧
    (authVerify now s users ⟨email, code, some p, confirm⟩).users = users ∧
    (authVerify now
      (authVerify now s users ⟨email, code, some p, confirm⟩).store users
      ⟨email, code, some p, confirm⟩).status = 401 ∧
    (authVerify now
      (authVerify now s users ⟨email, code, some p, confirm⟩).store users
      ⟨email, code, some p, confirm⟩).users = users := by
  have h1 : authVerify now s users ⟨email, code, some p, confirm⟩
      = { status := 400, store := storeDelete s (jsToLower email),
          users := users } := by
    unfold authVerify
    rw [validateCode_hit now e s email code hrec hexp]
    rcases hbad with hb | hb
    · simp [hemail, hcode, hb]
    · by_cases hlen : p.length < 6
      · simp [hemail, hcode, hlen]
      · simp [hemail, hcode, hlen, hb]
  have h2 : authVerify now (storeDelete s (jsToLower email)) users
      ⟨email, code, some p, confirm⟩
      = { status := 401, store := storeDelete s (jsToLower email),
          users := users } := by
    unfold authVerify
    rw [validateCode_absent now _ email code (storeGet_storeDelete_self ..)]
    simp [hemail, hcode]
  rw [h1]
  exact ⟨rfl, rfl, by rw [h2], by rw [h2]⟩

/-- Witness for C8: a concrete rejected-password verification answers 400
    without touching the (empty) users table, and its replay answers 401. -/
theorem verify_rejected_password_preserves_account_witness :
    (authVerify 0 [("a@x.edu", { code := "123456", expiresAt := 1000 })] []
      ⟨"a@x.edu", "123456", some "abc", some "abc"⟩).status = 400 ∧
    (authVerify 0 [("a@x.edu", { code := "123456", expiresAt := 1000 })] []
      ⟨"a@x.edu", "123456", some "abc", some "abc"⟩).users = [] ∧
    (authVerify 0
      (authVerify 0 [("a@x.edu", { code := "123456", expiresAt := 1000 })] []
        ⟨"a@x.edu", "123456", some "abc", some "abc"⟩).store []
      ⟨"a@x.edu", "123456", some "abc", some "abc"⟩).status = 401 := by
  have h := verify_rejected_password_preserves_account 0 1000
    [("a@x.edu", { code := "123456", expiresAt := 1000 })] []
    "a@x.edu" "123456" "abc" (some "abc")
    (by decide) (by decide) (by decide) (by decide) (Or.inl (by decide))
  exact ⟨h.1, h.2.1, h.2.2.1⟩

/-- C10: `/auth/verify` consumes the OTP before checking any password
    rule: a request rejected 400 for a bad password still deletes the
    pending code, and an immediate retry with the same code and a
    corrected (valid) password answers 401. -/
theorem verify_consumes_code_on_rejected_password
    (now e : Int) (s : CodeStore) (users : List UserRow)
    (email code p : String) (confirm : Option String)
    (hemail : email ≠ "") (hcode : code ≠ "")
    (hrec : storeGet s (jsToLower email)
      = some { code := code, expiresAt := e })
    (hexp : ¬ now > e)
    (hbad : p.length < 6 ∨ confirm ≠ some p) :
    (authVerify now s users ⟨email, code, some p, confirm⟩).status = 400 ∧
    storeGet (authVerify now s users ⟨email, code, some p, confirm⟩).store
      (jsToLower email) = none ∧
    (∀ p2 : String,
      (authVerify now
        (authVerify now s users ⟨email, code, some p, confirm⟩).store users
        ⟨email, code, some p2, some p2⟩).status = 401) := by
  have h1 : authVerify now s users ⟨email, code, some p, confirm⟩
      = { status := 400, store := storeDelete s (jsToLower email),
          users := users } := by
    unfold authVerify
    rw [validateCode_hit now e s email code hrec hexp]
    rcases hbad with hb | hb
    · simp [hemail, hcode, hb]
    · by_cases hlen : p.length < 6
      · simp [hemail, hcode, hlen]
      · simp [hemail, hcode, hlen, hb]
  rw [h1]
  refine ⟨rfl, storeGet_storeDelete_self .., ?_⟩
  intro p2
  unfold authVerify
  rw [validateCode_absent now _ email code (storeGet_storeDelete_self ..)]
  simp [hemail, hcode]

/-- Witness for C10: the rejected 400 request deleted the code, so the
    corrected retry with the same code answers 401. -/
theorem verify_consumes_code_on_rejected_password_witness :
    (authVerify 0 [("a@x.edu", { code := "123456", expiresAt := 1000 })] []
      ⟨"a@x.edu", "123456", some "abc", some "abc"⟩).status = 400 ∧
    storeGet (authVerify 0
      [("a@x.edu", { code := "123456", expiresAt := 1000 })] []
      ⟨"a@x.edu", "123456", some "abc", some "abc"⟩).store
      (jsToLower "a@x.edu") = none ∧
    (authVerify 0
      (authVerify 0 [("a@x.edu", { code := "123456", expiresAt := 1000 })] []
        ⟨"a@x.edu", "123456", some "abc", some "abc"⟩).store []
      ⟨"a@x.edu", "123456", some "secret1", some "secret1"⟩).status = 401 := by
  have h := verify_consumes_code_on_rejected_password 0 1000
    [("a@x.edu", { code := "123456", expiresAt := 1000 })] []
    "a@x.edu" "123456" "abc" (some "abc")
    (by decide) (by decide) (by decide) (by decide) (Or.inl (by decide))
  exact ⟨h.1, h.2.1, h.2.2 "secret1"⟩

/-! ### Registration-ledger theorems -/

/-- When the pair has no registered row the UPDATE touches zero rows and
    the route answers 404 leaving the table as it was. -/
theorem unregister_zero (rows : List EventRow) (aid uid : Nat)
    (h : pairRegistered rows aid uid = 0) :
    unregister rows aid uid = (UnregResult.registrationNotFound, rows) := by
  unfold unregister
  simp [h]

/-- C6: `unregister` answers RegistrationNotFound when the pair has no
    `registered` row (in particular when its row is already cancelled) and
    changes nothing; otherwise it succeeds, keeps every row (same count),
    leaves the pair with no `registered` row but with a `cancelled` one,
    and a second call answers RegistrationNotFound without any further
    change. -/
theorem unregister_spec (rows : List EventRow) (aid uid : Nat) :
    (pairRegistered rows aid uid = 0 →
      unregister rows aid uid = (UnregResult.registrationNotFound, rows)) ∧
    (0 < pairRegistered rows aid uid →
      (unregister rows aid uid).1 = UnregResult.success ∧
      (unregister rows aid uid).2.length = rows.length ∧
      pairRegistered (unregister rows aid uid).2 aid uid = 0 ∧
      (∃ r ∈ (unregister rows aid uid).2,
        r.announcementId = aid ∧ r.userId = uid ∧
        r.status = RegStatus.cancelled) ∧
      unregister (unregister rows aid uid).2 aid uid
        = (UnregResult.registrationNotFound, (unregister rows aid uid).2)) := by
  constructor
  · exact unregister_zero rows aid uid
  · intro h
    have hne : ¬ pairRegistered rows aid uid = 0 := Nat.pos_iff_ne_zero.mp h
    have hres : unregister rows aid uid
        = (UnregResult.success,
           List.map (fun r => if regHit aid uid r then
                                { r with status := RegStatus.cancelled }
                              else r) rows) := by
      unfold unregister
      simp [hne]
    have hzero : pairRegistered (unregister rows aid uid).2 aid uid = 0 := by
      rw [hres]
      unfold pairRegistered
      rw [List.countP_eq_zero]
      intro r' hr'
      rcases List.mem_map.mp hr' with ⟨r, _, hfr⟩
      by_cases hhit : regHit aid uid r
      · subst hfr
        rw [if_pos hhit]
        simp [regHit]
      · subst hfr
        rw [if_neg hhit]
        exact hhit
    refine ⟨by rw [hres], by rw [hres]; exact List.length_map .., hzero, ?_, ?_⟩
    · rcases List.countP_pos_iff.mp h with ⟨r, hmem, hhit⟩
      refine ⟨{ r with status := RegStatus.cancelled }, ?_, ?_⟩
      · rw [hres]
        exact List.mem_map.mpr ⟨r, hmem, by simp [hhit]⟩
      · have h3 := hhit
        unfold regHit at h3
        simp only [Bool.and_eq_true, beq_iff_eq] at h3
        exact ⟨h3.1.1, h3.1.2, rfl⟩
    · exact unregister_zero _ aid uid hzero

/-- Witness for C6: cancelling the one registered row succeeds and the
    repeat answers RegistrationNotFound. -/
theorem unregister_spec_witness :
    (unregister [{ announcementId := 1, userId := 7,
                   status := RegStatus.registered }] 1 7).1
      = UnregResult.success ∧
    unregister (unregister [{ announcementId := 1, userId := 7,
                              status := RegStatus.registered }] 1 7).2 1 7
      = (UnregResult.registrationNotFound,
         (unregister [{ announcementId := 1, userId := 7,
                        status := RegStatus.registered }] 1 7).2) := by
  have h := (unregister_spec
    [{ announcementId := 1, userId := 7, status := RegStatus.registered }]
    1 7).2 (by decide)
  exact ⟨h.1, h.2.2.2.2⟩

/-- C5: with a deadline set and every other precondition holding
    (enabled, capacity set and not reached, no existing row for the pair),
    `register` succeeds strictly before the deadline and fails with
    DeadlinePassed strictly after it. -/
theorem register_deadline_boundary
    (now d m : Int) (rows : List EventRow) (aid uid : Nat)
    (hm : 0 < m)
    (hcap : (countRegistered rows aid : Int) < m)
    (hrow : findRow rows aid uid = none) :
    (now < d →
      (register now { regEnabled := true, deadline := some d,
                      maxRegs := some m } rows aid uid).1
        = RegResult.success) ∧
    (now > d →
      (register now { regEnabled := true, deadline := some d,
                      maxRegs := some m } rows aid uid).1
        = RegResult.deadlinePassed) := by
  constructor
  · intro hlt
    have hnd : ¬ now > d := not_lt.mpr hlt.le
    unfold register deadlineOver jsTruthyNum
    simp [hnd, hm.ne', not_le.mpr hcap, hrow]
  · intro hgt
    unfold register deadlineOver
    simp [hgt]

/-- Witness for C5: one second before a deadline registration succeeds; one
    second after it fails with DeadlinePassed. -/
theorem register_deadline_boundary_witness :
    (register 4000 { regEnabled := true, deadline := some 5000,
                     maxRegs := some 10 } [] 1 7).1 = RegResult.success ∧
    (register 6000 { regEnabled := true, deadline := some 5000,
                     maxRegs := some 10 } [] 1 7).1
      = RegResult.deadlinePassed := by
  refine ⟨(register_deadline_boundary 4000 5000 10 [] 1 7 (by decide)
    (by decide) (by decide)).1 (by decide), ?_⟩
  exact (register_deadline_boundary 6000 5000 10 [] 1 7 (by decide)
    (by decide) (by decide)).2 (by decide)

/-- C1 (failing input): with `max_registrations` unset the register route
    answers success — yet, because the already-registered check and both
    writes sit inside `if (announcement.max_registrations)`, it inserts no
    row, and the subsequent registration-status query reports
    `registered: false`. -/
theorem register_no_capacity_inserts_nothing :
    (registerEndpoint 0 c1db "a@x.edu" 1).1 = RegResult.success ∧
    (registerEndpoint 0 c1db "a@x.edu" 1).2.registrations = [] ∧
    registrationStatus (registerEndpoint 0 c1db "a@x.edu" 1).2
      "a@x.edu" 1 = false := by
  refine ⟨by decide, by decide, by decide⟩

/-- C4 (failing part): the `registration-info` projection computes its
    `registration_enabled` field as `announcement.registration_enabled
    === 1`; the column is BOOLEAN, so the field is false for every
    announcement — also for one whose stored flag is true. -/
theorem registration_info_enabled_constant_false :
    (∀ (now : Int) (a : Ann) (rows : List EventRow) (aid : Nat),
      (registrationInfo now a rows aid).enabled = false) ∧
    (registrationInfo 0 { regEnabled := true, deadline := none,
                          maxRegs := none } [] 1).enabled = false ∧
    ({ regEnabled := true, deadline := none, maxRegs := none } : Ann).regEnabled
      = true := by
  exact ⟨fun now a rows aid => rfl, rfl, rfl⟩


/-! ### Capacity helper lemmas -/

/-- `COUNT` splits over a split table. -/
theorem countRegistered_append (xs ys : List EventRow) (aid : Nat) :
    countRegistered (xs ++ ys) aid
      = countRegistered xs aid + countRegistered ys aid :=
  List.countP_append ..

/-- A freshly inserted registration row counts one. -/
theorem countRegistered_mkReg (aid uid : Nat) :
    countRegistered [mkReg aid uid] aid = 1 := by
  simp [countRegistered, mkReg]

/-- Row lookup splits over a split table. -/
theorem findRow_append (xs ys : List EventRow) (aid uid : Nat) :
    findRow (xs ++ ys) aid uid
      = (findRow xs aid uid).or (findRow ys aid uid) :=
  List.find?_append ..

/-- A fresh row for another user does not satisfy the pair lookup. -/
theorem findRow_mkReg_ne (aid u uid : Nat) (h : u ≠ uid) :
    findRow [mkReg aid u] aid uid = none := by
  simp [findRow, mkReg, h]

/-- With capacity `m` not yet reached and no row for the pair, `register`
    inserts a fresh `registered` row and succeeds. -/
theorem register_insert (now m : Int) (rows : List EventRow) (aid uid : Nat)
    (hm : 0 < m) (hcap : (countRegistered rows aid : Int) < m)
    (hrow : findRow rows aid uid = none) :
    register now (capAnn m) rows aid uid
      = (RegResult.success, rows ++ [mkReg aid uid]) := by
  unfold register capAnn deadlineOver jsTruthyNum mkReg
  simp [hm.ne', not_le.mpr hcap, hrow]

/-- Once the `registered` count meets the capacity, `register` fails with
    EventFull for any caller. -/
theorem register_full (now m : Int) (rows : List EventRow) (aid uid : Nat)
    (hm : 0 < m) (hcap : m ≤ (countRegistered rows aid : Int)) :
    (register now (capAnn m) rows aid uid).1 = RegResult.eventFull := by
  unfold register capAnn deadlineOver jsTruthyNum
  simp [hm.ne', hcap]

/-- Registering a list of pairwise fresh users whose number still fits the
    capacity succeeds throughout and appends exactly their rows. -/
theorem registerSeq_fills (now : Int) (aid : Nat) (m : Int) (hm : 0 < m) :
    ∀ (us : List Nat) (rows : List EventRow), us.Nodup →
      (∀ u ∈ us, findRow rows aid u = none) →
      (countRegistered rows aid : Int) + us.length ≤ m →
      (∀ r ∈ (registerSeq now (capAnn m) aid rows us).1,
        r = RegResult.success) ∧
      (registerSeq now (capAnn m) aid rows us).2
        = rows ++ us.map (fun u => mkReg aid u) := by
  intro us
  induction us with
  | nil =>
    intro rows _ _ _
    exact ⟨fun r hr => absurd hr (List.not_mem_nil r), by simp [registerSeq]⟩
  | cons u rest ih =>
    intro rows hnd hfind hcap
    have hfind_u : findRow rows aid u = none :=
      hfind u (List.mem_cons_self u rest)
    have hcap' : (countRegistered rows aid : Int) + ((rest.length : Int) + 1)
        ≤ m := by
      have h0 := hcap
      push_cast [List.length_cons] at h0
      linarith
    have hcap_u : (countRegistered rows aid : Int) < m := by
      have hlen : (0 : Int) ≤ (rest.length : Int) := Int.natCast_nonneg _
      linarith
    have hreg := register_insert now m rows aid u hm hcap_u hfind_u
    have hnotin : u ∉ rest := (List.nodup_cons.mp hnd).1
    have hfind2 : ∀ v ∈ rest, findRow (rows ++ [mkReg aid u]) aid v = none := by
      intro v hv
      rw [findRow_append, hfind v (List.mem_cons_of_mem u hv), Option.none_or]
      exact findRow_mkReg_ne aid u v (fun he => hnotin (he ▸ hv))
    have hcap2 : (countRegistered (rows ++ [mkReg aid u]) aid : Int)
        + rest.length ≤ m := by
      rw [countRegistered_append, countRegistered_mkReg]
      push_cast
      linarith
    obtain ⟨hall, hfinal⟩ := ih (rows ++ [mkReg aid u])
      (List.nodup_cons.mp hnd).2 hfind2 hcap2
    have hstep : registerSeq now (capAnn m) aid rows (u :: rest)
        = ((register now (capAnn m) rows aid u).1 ::
           (registerSeq now (capAnn m) aid
             (register now (capAnn m) rows aid u).2 rest).1,
           (registerSeq now (capAnn m) aid
             (register now (capAnn m) rows aid u).2 rest).2) := rfl
    rw [hstep, hreg]
    constructor
    · intro r hr
      rcases List.mem_cons.mp hr with h1 | h1
      · exact h1
      · exact hall r h1
    · rw [hfinal, List.map_cons, List.append_assoc]
      rfl

/-- The table produced by registering exactly the users of `us` counts one
    `registered` row per user. -/
theorem countRegistered_map_mk (us : List Nat) (aid : Nat) :
    countRegistered (us.map (fun u => mkReg aid u)) aid = us.length := by
  unfold countRegistered
  rw [List.countP_map]
  exact List.countP_eq_length.mpr (fun u _ => by simp [mkReg])

/-- On such a table the unregister `rowCount` for user `v` is the number
    of occurrences of `v` in `us`. -/
theorem pairRegistered_map_mk (us : List Nat) (aid v : Nat) :
    pairRegistered (us.map (fun u => mkReg aid u)) aid v = us.count v := by
  unfold pairRegistered
  rw [List.countP_map, List.count_eq_countP]
  exact List.countP_congr (fun u _ => by simp [regHit, mkReg])

/-- A user with no row keeps having none on such a table. -/
theorem findRow_map_mk_none (us : List Nat) (aid w : Nat) (h : w ∉ us) :
    findRow (us.map (fun u => mkReg aid u)) aid w = none := by
  unfold findRow
  rw [List.find?_eq_none]
  intro r hr
  rcases List.mem_map.mp hr with ⟨u, hu, rfl⟩
  simp only [mkReg, Bool.and_eq_true, beq_iff_eq, not_and]
  intro _ he
  exact absurd (he ▸ hu) h

/-- The cancel UPDATE moves exactly the pair's `registered` rows out of
    the `registered` count. -/
theorem countRegistered_unreg_add (rows : List EventRow) (aid v : Nat) :
    countRegistered rows aid
      = countRegistered (List.map (fun r => if regHit aid v r then
            { r with status := RegStatus.cancelled } else r) rows) aid
        + pairRegistered rows aid v := by
  induction rows with
  | nil => rfl
  | cons r rest ih =>
    by_cases hhit : regHit aid v r
    · have hmatch : (r.announcementId == aid
          && r.status == RegStatus.registered) = true := by
        unfold regHit at hhit
        simp only [Bool.and_eq_true] at hhit
        simp [hhit.1.1, hhit.2]
      have hL : countRegistered (r :: rest) aid
          = countRegistered rest aid + 1 := by
        simp [countRegistered, List.countP_cons, hmatch]
      have hR : countRegistered (List.map (fun r => if regHit aid v r then
            { r with status := RegStatus.cancelled } else r) (r :: rest)) aid
          = countRegistered (List.map (fun r => if regHit aid v r then
            { r with status := RegStatus.cancelled } else r) rest) aid := by
        simp [countRegistered, List.countP_cons, hhit]
      have hP : pairRegistered (r :: rest) aid v
          = pairRegistered rest aid v + 1 := by
        simp [pairRegistered, List.countP_cons, hhit]
      rw [hL, hR, hP]
      omega
    · have hfr : (if regHit aid v r then
          { r with status := RegStatus.cancelled } else r) = r := if_neg hhit
      unfold countRegistered pairRegistered at ih ⊢
      rw [List.map_cons, List.countP_cons, List.countP_cons, List.countP_cons,
        hfr, if_neg hhit]
      omega

/-- Row lookup is insensitive to the cancel UPDATE's status flips. -/
theorem findRow_unreg_none (rows : List EventRow) (aid v w : Nat)
    (h : findRow rows aid w = none) :
    findRow (List.map (fun r => if regHit aid v r then
        { r with status := RegStatus.cancelled } else r) rows) aid w
      = none := by
  unfold findRow at h ⊢
  rw [List.find?_eq_none] at h ⊢
  intro r' hr'
  rcases List.mem_map.mp hr' with ⟨r, hr, rfl⟩
  have hnot := h r hr
  by_cases hhit : regHit aid v r
  · rw [if_pos hhit]
    simpa using hnot
  · rw [if_neg hhit]
    exact hnot

/-- C2: for an announcement with `max_registrations = N` (registration
    enabled, no deadline), registering `N` distinct fresh users succeeds
    every time; any further register call then fails with EventFull; after
    one unregister by one of the registered users, one more register by a
    fresh user succeeds, and the call after that fails with EventFull
    again — capacity is counted over `status = registered` rows only, so
    the cancelled row does not block reopening. -/
theorem registration_capacity
    (now : Int) (aid : Nat) (N : Nat) (hN : 0 < N)
    (us : List Nat) (hlen : us.length = N) (hnd : us.Nodup)
    (v w w2 : Nat) (hv : v ∈ us) (hw : w ∉ us) :
    (∀ r ∈ (registerSeq now (capAnn (N : Int)) aid [] us).1,
      r = RegResult.success) ∧
    (register now (capAnn (N : Int))
      (registerSeq now (capAnn (N : Int)) aid [] us).2 aid w2).1
      = RegResult.eventFull ∧
    (unregister (registerSeq now (capAnn (N : Int)) aid [] us).2 aid v).1
      = UnregResult.success ∧
    (register now (capAnn (N : Int))
      (unregister (registerSeq now (capAnn (N : Int)) aid [] us).2
        aid v).2 aid w).1 = RegResult.success ∧
    (register now (capAnn (N : Int))
      (register now (capAnn (N : Int))
        (unregister (registerSeq now (capAnn (N : Int)) aid [] us).2
          aid v).2 aid w).2 aid w2).1 = RegResult.eventFull := by
  have hmN : (0 : Int) < (N : Int) := by exact_mod_cast hN
  obtain ⟨hall, hfill⟩ := registerSeq_fills now aid (N : Int) hmN us []
    hnd (fun u _ => rfl) (by simp [countRegistered, hlen])
  have hcount : countRegistered
      (registerSeq now (capAnn (N : Int)) aid [] us).2 aid = N := by
    rw [hfill]
    simpa [countRegistered_map_mk] using hlen
  have hpair : pairRegistered
      (registerSeq now (capAnn (N : Int)) aid [] us).2 aid v = 1 := by
    rw [hfill]
    simpa [pairRegistered_map_mk] using List.count_eq_one_of_mem hnd hv
  have hunreg1 : (unregister
      (registerSeq now (capAnn (N : Int)) aid [] us).2 aid v).1
      = UnregResult.success := by
    unfold unregister
    rw [hpair]
    simp
  have hunreg2 : (unregister
      (registerSeq now (capAnn (N : Int)) aid [] us).2 aid v).2
      = List.map (fun r => if regHit aid v r then
          { r with status := RegStatus.cancelled } else r)
        (registerSeq now (capAnn (N : Int)) aid [] us).2 := by
    unfold unregister
    rw [hpair]
    simp
  have hcount2 : countRegistered (unregister
      (registerSeq now (capAnn (N : Int)) aid [] us).2 aid v).2 aid + 1
      = N := by
    rw [hunreg2]
    have hadd := countRegistered_unreg_add
      (registerSeq now (capAnn (N : Int)) aid [] us).2 aid v
    rw [hcount, hpair] at hadd
    omega
  have hfind_w : findRow (unregister
      (registerSeq now (capAnn (N : Int)) aid [] us).2 aid v).2 aid w
      = none := by
    rw [hunreg2]
    refine findRow_unreg_none _ aid v w ?_
    rw [hfill]
    exact findRow_map_mk_none us aid w hw
  have hcaplt : (countRegistered (unregister
      (registerSeq now (capAnn (N : Int)) aid [] us).2 aid v).2 aid : Int)
      < (N : Int) := by
    exact_mod_cast (by omega :
      (countRegistered (unregister
        (registerSeq now (capAnn (N : Int)) aid [] us).2 aid v).2 aid : Int)
      < (N : Int))
  have hreg_w := register_insert now (N : Int)
    (unregister (registerSeq now (capAnn (N : Int)) aid [] us).2 aid v).2
    aid w hmN hcaplt hfind_w
  refine ⟨hall, ?_, hunreg1, ?_, ?_⟩
  · exact register_full now (N : Int) _ aid w2 hmN (by rw [hcount])
  · rw [hreg_w]
  · rw [hreg_w]
    refine register_full now (N : Int) _ aid w2 hmN ?_
    rw [countRegistered_append, countRegistered_mkReg]
    push_cast
    omega

/-- Witness for C2: capacity two, users 1 and 2 fill the event, user 4 is
    rejected EventFull, user 2 unregisters, user 3 then succeeds. -/
theorem registration_capacity_witness :
    (∀ r ∈ (registerSeq 0 (capAnn 2) 9 [] [1, 2]).1,
      r = RegResult.success) ∧
    (register 0 (capAnn 2) (registerSeq 0 (capAnn 2) 9 [] [1, 2]).2 9 4).1
      = RegResult.eventFull ∧
    (unregister (registerSeq 0 (capAnn 2) 9 [] [1, 2]).2 9 2).1
      = UnregResult.success ∧
    (register 0 (capAnn 2)
      (unregister (registerSeq 0 (capAnn 2) 9 [] [1, 2]).2 9 2).2 9 3).1
      = RegResult.success := by
  have h := registration_capacity 0 9 2 (by decide) [1, 2] (by decide)
    (by decide) 2 3 4 (by decide) (by decide)
  exact ⟨h.1, h.2.1, h.2.2.1, h.2.2.2.1⟩

/-! ### Profile role policy -/

/-- A generic profile edit (the `else` branch of the route and, inside
    `updateProfile`, the shape with neither `request_admin` nor a truthy
    role) never writes the role or club columns. -/
theorem updateProfile_generic_keeps_role (u : UserRow)
    (name branch rollNumber : Option String) :
    (updateProfile u name branch rollNumber none none false).role = u.role ∧
    (updateProfile u name branch rollNumber none none false).clubId
      = u.clubId := by
  unfold updateProfile jsTruthyStr
  simp

/-- C7: a user whose role is already set (truthy) keeps both role and club
    unchanged under any `POST /profile` body; and whenever the route does
    change the stored role, the previous role was unset (falsy) and the
    new one is `student` — the role is settable only while null, at most
    once. -/
theorem profile_role_single_shot (u : UserRow) (b : ProfileBody) :
    (jsTruthyStr u.role = true →
      (postProfile u b).role = u.role ∧ (postProfile u b).clubId = u.clubId) ∧
    ((postProfile u b).role ≠ u.role →
      jsTruthyStr u.role = false ∧ (postProfile u b).role = some "student") := by
  have hkeep : jsTruthyStr u.role = true →
      (postProfile u b).role = u.role ∧
      (postProfile u b).clubId = u.clubId := by
    intro htrue
    unfold postProfile
    rw [if_neg (by simp [htrue])]
    exact updateProfile_generic_keeps_role u (orNullStr b.name)
      (orNullStr b.branch) (orNullStr b.rollNumber)
  refine ⟨hkeep, ?_⟩
  intro hne
  by_cases hu : jsTruthyStr u.role
  · exact absurd (hkeep hu).1 hne
  · have hu' : jsTruthyStr u.role = false := by simpa using hu
    refine ⟨hu', ?_⟩
    by_cases hb : jsTruthyStr b.role
    · have hcond : (jsTruthyStr b.role && !jsTruthyStr u.role) = true := by
        simp [hb, hu']
      unfold postProfile at hne ⊢
      rw [if_pos hcond] at hne ⊢
      by_cases hs : b.role = some "student"
      · rw [if_pos hs]
        unfold updateProfile jsTruthyStr
        simp
      · rw [if_neg hs] at hne ⊢
        by_cases hc : b.role = some "club_admin"
        · rw [if_pos hc] at hne
          unfold updateProfile at hne
          simp at hne
        · rw [if_neg hc] at hne
          exact absurd rfl hne
    · have hcond : (jsTruthyStr b.role && !jsTruthyStr u.role) = false := by
        simp [hb]
      unfold postProfile at hne
      rw [if_neg (by simp [hcond])] at hne
      exact absurd (updateProfile_generic_keeps_role u (orNullStr b.name)
        (orNullStr b.branch) (orNullStr b.rollNumber)).1 hne

/-- Witness for C7: a student attempting to re-declare as club admin of
    club 2 keeps role `student` and club unchanged. -/
theorem profile_role_single_shot_witness :
    (postProfile
      { id := 1, email := "a@x.edu", passwordHash := none,
        role := some "student", name := none, branch := none,
        rollNumber := none, clubId := some 1, adminRequested := false }
      { name := some "A", branch := none, rollNumber := none,
        role := some "club_admin", clubId := some 2 }).role
      = some "student" ∧
    (postProfile
      { id := 1, email := "a@x.edu", passwordHash := none,
        role := some "student", name := none, branch := none,
        rollNumber := none, clubId := some 1, adminRequested := false }
      { name := some "A", branch := none, rollNumber := none,
        role := some "club_admin", clubId := some 2 }).clubId
      = some 1 := by
  have h := (profile_role_single_shot
    { id := 1, email := "a@x.edu", passwordHash := none,
      role := some "student", name := none, branch := none,
      rollNumber := none, clubId := some 1, adminRequested := false }
    { name := some "A", branch := none, rollNumber := none,
      role := some "club_admin", clubId := some 2 }).1 (by decide)
  exact ⟨h.1, h.2⟩
